import Mathlib

/-!
Shallow embedding of `src/log_analyzer.py` (Real-time Log Analyzer).

Python strings are modelled as Lean `String` and Python `dict` log records as a
structure with one `Option String` field per possible key (a missing key is
`none`).  Python's `str.upper` / `str.lower` / `str.strip` and the regex
character classes `\w`, `\d`, `\s` are modelled at their ASCII meaning, which
covers every string the program and its spec mention.  Wall-clock values
(`datetime.now().strftime('%Y-%m-%d %H:%M:%S')` and `time.time()`) are passed
in as explicit parameters `now` / `current_time`.
-/

/-! ### Python string primitives -/

/-- ASCII model of Python's notion of whitespace (`str.strip`, regex `\s`). -/
def pySpace (c : Char) : Bool :=
  c = ' ' || c = '\t' || c = '\n' || c = '\r' || c = '\x0b' || c = '\x0c'

/-- Python `str.strip()`: remove leading and trailing whitespace. -/
def pyStrip (s : String) : String :=
  String.mk (((s.toList.dropWhile pySpace).reverse.dropWhile pySpace).reverse)

/-- Python `str.upper()` (ASCII model). -/
def pyUpper (s : String) : String :=
  String.mk (s.toList.map Char.toUpper)

/-- Python `str.lower()` (ASCII model). -/
def pyLower (s : String) : String :=
  String.mk (s.toList.map Char.toLower)

/-- Python substring test `needle in hay` over strings. -/
def pySub (needle : List Char) : List Char → Bool
  | [] => needle.isEmpty
  | c :: rest => needle.isPrefixOf (c :: rest) || pySub needle rest

/-- Python `list.index` wrapped in `try`/`except ValueError`: `none` models the
exception path. -/
def pyIndex (xs : List String) (x : String) : Option Nat :=
  match xs with
  | [] => none
  | a :: t => if a = x then some 0 else (pyIndex t x).map (· + 1)

/-! ### Log records (Python dicts with at most the four keys the program uses) -/

/-- Named capture groups / dict keys used by `log_analyzer.py`. -/
inductive GName
  | timestamp
  | level
  | service
  | message
deriving DecidableEq

/-- A parsed log record: a Python dict whose possible keys are `timestamp`,
`level`, `service`, `message`; `none` models an absent key. -/
structure Record where
  timestamp : Option String
  level : Option String
  service : Option String
  message : Option String
deriving DecidableEq

/-- The empty dict (no keys). -/
def Record.empty : Record := ⟨none, none, none, none⟩

/-- Dict lookup by key name. -/
def Record.get : Record → GName → Option String
  | r, .timestamp => r.timestamp
  | r, .level => r.level
  | r, .service => r.service
  | r, .message => r.message

/-- Dict write by key name. -/
def Record.set : Record → GName → String → Record
  | r, .timestamp, v => { r with timestamp := some v }
  | r, .level, v => { r with level := some v }
  | r, .service, v => { r with service := some v }
  | r, .message, v => { r with message := some v }

/-! ### A backtracking regex engine for the four patterns of `LogParser`

The four source patterns use only: literal characters, the classes `\w`, `\d`,
`\s`, `.`, the quantifiers `{n}`, `{n,m}`, `+`, `*`, `?`, `*?` (each applied to
a single character class), concatenation, and named groups.  `matchR` returns
the list of all (captures, remaining-suffix) outcomes in exactly the priority
order of Python's backtracking engine (greedy = longest first, lazy = shortest
first, leftmost alternative explored first), so `List.head?` of the outcomes is
the match `re.match` finds; `re.match` anchors at the start of the string and
allows a trailing unmatched suffix. -/

/-- Single-character regex atoms (ASCII model of Python's classes). -/
inductive CharCls
  | word
  | digit
  | space
  | dot
  | lit (c : Char)
deriving DecidableEq

def CharCls.test : CharCls → Char → Bool
  | .word, c => c.isAlphanum || c = '_'
  | .digit, c => c.isDigit
  | .space, c => pySpace c
  | .dot, c => c ≠ '\n'
  | .lit a, c => c = a

inductive Quant
  | greedy
  | lazy
deriving DecidableEq

inductive Regex
  | eps
  | cls (c : CharCls) (lo : Nat) (hi : Option Nat) (q : Quant)
  | group (n : GName) (r : Regex)
  | cat (r₁ r₂ : Regex)

/-- Length of the longest prefix of `s` whose characters all satisfy `c`. -/
def classRun (c : CharCls) : List Char → Nat
  | [] => 0
  | a :: s => if c.test a then classRun c s + 1 else 0

/-- The repetition counts a quantifier `{lo,hi}` may consume when at most `run`
consecutive characters are available, in backtracking priority order. -/
def countsFor (lo : Nat) (hi : Option Nat) (q : Quant) (run : Nat) : List Nat :=
  match hi with
  | none =>
    if lo ≤ run then
      match q with
      | .greedy => (List.range' lo (run - lo + 1)).reverse
      | .lazy => List.range' lo (run - lo + 1)
    else []
  | some h =>
    if lo ≤ min h run then
      match q with
      | .greedy => (List.range' lo (min h run - lo + 1)).reverse
      | .lazy => List.range' lo (min h run - lo + 1)
    else []

/-- All outcomes of matching `re` at the head of `s`, in priority order. -/
def matchR : Regex → Record → List Char → List (Record × List Char)
  | .eps, caps, s => [(caps, s)]
  | .cls c lo hi q, caps, s =>
    (countsFor lo hi q (classRun c s)).map (fun k => (caps, s.drop k))
  | .group n r, caps, s =>
    (matchR r caps s).map
      (fun p => (p.1.set n (String.mk (s.take (s.length - p.2.length))), p.2))
  | .cat r₁ r₂, caps, s =>
    (matchR r₁ caps s).flatMap (fun p => matchR r₂ p.1 p.2)

/-- The group names occurring in a pattern. -/
def Regex.names : Regex → List GName
  | .eps => []
  | .cls _ _ _ _ => []
  | .group n r => n :: r.names
  | .cat a b => a.names ++ b.names

/-! Smart constructors used to transcribe the source patterns. -/

def seqAll : List Regex → Regex
  | [] => .eps
  | r :: rs => .cat r (seqAll rs)

/-- A single literal character. -/
def rlit (c : Char) : Regex := .cls (.lit c) 1 (some 1) .greedy

/-- A literal string. -/
def rstr (s : String) : Regex := seqAll (s.toList.map rlit)

/-- `c+` (greedy). -/
def rePlus (c : CharCls) : Regex := .cls c 1 none .greedy

/-- `c*` (greedy). -/
def reStar (c : CharCls) : Regex := .cls c 0 none .greedy

/-- `c*?` (lazy). -/
def reLazyStar (c : CharCls) : Regex := .cls c 0 none .lazy

/-- `c?` (greedy). -/
def reOpt (c : CharCls) : Regex := .cls c 0 (some 1) .greedy

/-- `c{n}` (exact count). -/
def reRep (c : CharCls) (n : Nat) : Regex := .cls c n (some n) .greedy

/-- `c{lo,hi}` (greedy). -/
def reRepRange (c : CharCls) (lo hi : Nat) : Regex := .cls c lo (some hi) .greedy

/-! ### The four compiled patterns of `LogParser.__init__` -/

/-- `(?P<timestamp>\w{3}\s+\d{1,2}\s+\d{2}:\d{2}:\d{2})\s+\w+\s+(?P<service>\w+)\[?\d*\]?:\s+(?P<level>\w+):?\s+(?P<message>.*)` -/
def syslog_pattern : Regex := seqAll [
  .group .timestamp (seqAll [reRep .word 3, rePlus .space, reRepRange .digit 1 2,
    rePlus .space, reRep .digit 2, rlit ':', reRep .digit 2, rlit ':', reRep .digit 2]),
  rePlus .space, rePlus .word, rePlus .space,
  .group .service (rePlus .word),
  reOpt (.lit '['), reStar .digit, reOpt (.lit ']'), rlit ':',
  rePlus .space,
  .group .level (rePlus .word),
  reOpt (.lit ':'),
  rePlus .space,
  .group .message (reStar .dot)]

/-- `\[(?P<timestamp>.*?)\]\s+\[(?P<level>.*?)\]\s+\[pid \d+\]\s+\[client .*?\]\s+(?P<message>.*)` -/
def apache_pattern : Regex := seqAll [
  rlit '[', .group .timestamp (reLazyStar .dot), rlit ']',
  rePlus .space,
  rlit '[', .group .level (reLazyStar .dot), rlit ']',
  rePlus .space,
  rstr "[pid ", rePlus .digit, rlit ']',
  rePlus .space,
  rstr "[client ", reLazyStar .dot, rlit ']',
  rePlus .space,
  .group .message (reStar .dot)]

/-- `(?P<timestamp>\d{4}/\d{2}/\d{2}\s+\d{2}:\d{2}:\d{2})\s+\[(?P<level>.*?)\]\s+\d+#\d+:\s+\*\d+\s+(?P<message>.*)` -/
def nginx_pattern : Regex := seqAll [
  .group .timestamp (seqAll [reRep .digit 4, rlit '/', reRep .digit 2, rlit '/',
    reRep .digit 2, rePlus .space, reRep .digit 2, rlit ':', reRep .digit 2,
    rlit ':', reRep .digit 2]),
  rePlus .space,
  rlit '[', .group .level (reLazyStar .dot), rlit ']',
  rePlus .space,
  rePlus .digit, rlit '#', rePlus .digit, rlit ':',
  rePlus .space,
  rlit '*', rePlus .digit,
  rePlus .space,
  .group .message (reStar .dot)]

/-- `(?P<timestamp>.*?)\s+-\s+(?P<level>\w+)\s+-\s+(?P<service>\w+)\s+-\s+(?P<message>.*)` -/
def custom_pattern : Regex := seqAll [
  .group .timestamp (reLazyStar .dot),
  rePlus .space, rlit '-', rePlus .space,
  .group .level (rePlus .word),
  rePlus .space, rlit '-', rePlus .space,
  .group .service (rePlus .word),
  rePlus .space, rlit '-', rePlus .space,
  .group .message (reStar .dot)]

/-- The four keys of `LogParser.patterns` (`parse_line` is only ever called
with one of these: `argparse` restricts `--type` to exactly these choices, so
the `log_type in self.patterns` test is always true). -/
inductive LogType
  | syslog
  | apache
  | nginx
  | custom
deriving DecidableEq

def patternOf : LogType → Regex
  | .syslog => syslog_pattern
  | .apache => apache_pattern
  | .nginx => nginx_pattern
  | .custom => custom_pattern

/-- `LogParser.severity_levels` dict keys, in declaration (= iteration) order. -/
def severity_levels : List String :=
  ["EMERGENCY", "ALERT", "CRITICAL", "ERROR", "WARNING", "NOTICE", "INFO", "DEBUG"]

/-- `LogParser.parse_line(line, log_type)`.  On a grammar match it returns
`match.groupdict()`; otherwise it scans the uppercased line for the first
severity keyword in declaration order; otherwise `None`.  `now` stands for
`datetime.now().strftime('%Y-%m-%d %H:%M:%S')`. -/
def parse_line (now : String) (log_type : LogType) (line : String) : Option Record :=
  match (matchR (patternOf log_type) Record.empty (pyStrip line).toList).head? with
  | some p => some p.1
  | none =>
    match severity_levels.find? (fun l => pySub l.toList (pyUpper line).toList) with
    | some lv =>
      some { timestamp := some now, level := some lv, service := some "unknown",
             message := some (pyStrip line) }
    | none => none

/-! ### `PerformanceStats` -/

/-- `collections.deque(maxlen=maxlen).append(x)`: append on the right,
discarding from the left when the capacity is exceeded. -/
def dequePush {α : Type} (maxlen : Nat) (q : List α) (x : α) : List α :=
  if (q ++ [x]).length > maxlen then (q ++ [x]).drop ((q ++ [x]).length - maxlen)
  else q ++ [x]

/-- `defaultdict(int)` increment `d[k] += 1`, the dict viewed as a total
function with default `0`. -/
def bumpStat (f : String → Nat) (k : String) : String → Nat :=
  fun x => if x = k then f x + 1 else f x

/-- `PerformanceStats` fields.  `level_stats` and `service_stats` are the
`defaultdict(int)` tallies viewed as total functions; `throughput` holds the
`(current_time, 1)` pairs; `start_time` is omitted (only used for display
uptime). -/
structure PerformanceStats where
  window_size : Nat
  log_count : Nat
  error_count : Nat
  warning_count : Nat
  service_stats : String → Nat
  level_stats : String → Nat
  recent_logs : List Record
  throughput : List (Nat × Nat)

/-- `PerformanceStats.__init__` (default `window_size=300`). -/
def PerformanceStats.init : PerformanceStats :=
  ⟨300, 0, 0, 0, fun _ => 0, fun _ => 0, [], []⟩

/-- `PerformanceStats.update(log_entry)`.  `current_time` stands for
`time.time()`. -/
def PerformanceStats.update (s : PerformanceStats) (current_time : Nat)
    (log_entry : Record) : PerformanceStats :=
  let level := pyUpper (log_entry.level.getD "INFO")
  let service := log_entry.service.getD "unknown"
  { s with
    log_count := s.log_count + 1,
    recent_logs := dequePush 1000 s.recent_logs log_entry,
    level_stats := bumpStat s.level_stats level,
    service_stats := bumpStat s.service_stats service,
    error_count :=
      if level ∈ ["ERROR", "CRITICAL", "ALERT", "EMERGENCY"] then s.error_count + 1
      else s.error_count,
    warning_count :=
      if level ∈ ["ERROR", "CRITICAL", "ALERT", "EMERGENCY"] then s.warning_count
      else if level = "WARNING" then s.warning_count + 1
      else s.warning_count,
    throughput := dequePush s.window_size s.throughput (current_time, 1) }

/-- `PerformanceStats.get_error_rate`, with Python's float arithmetic modelled
by exact rationals (the spec's `3/10*100` instance is exact in binary floating
point as well). -/
def PerformanceStats.get_error_rate (s : PerformanceStats) : ℚ :=
  if s.log_count = 0 then 0
  else ((s.error_count : ℚ) / (s.log_count : ℚ)) * 100

/-- One iteration of the body of `RealTimeLogAnalyzer.tail_log` for one line
read from the file (when running and not paused): parse, and update the stats
only when parsing succeeded. -/
def tail_log_step (now : String) (log_type : LogType) (current_time : Nat)
    (s : PerformanceStats) (line : String) : PerformanceStats :=
  match parse_line now log_type line with
  | some parsed => s.update current_time parsed
  | none => s

/-- Feeding a list of records through `update` one by one. -/
def feedRecords (t : Nat) (s : PerformanceStats) (rs : List Record) : PerformanceStats :=
  rs.foldl (fun st r => st.update t r) s

/-! ### `LogFilter` -/

structure LogFilter where
  severity_threshold : String
  service_filter : Option String
  keyword_filter : Option String
  exclude_keywords : List String
deriving DecidableEq

/-- `LogFilter.__init__` ("Show all by default"). -/
def LogFilter.init : LogFilter := ⟨"DEBUG", none, none, []⟩

/-- `LogFilter.set_severity(level)`. -/
def LogFilter.set_severity (f : LogFilter) (level : String) : LogFilter :=
  { f with severity_threshold := pyUpper level }

/-- `LogFilter.set_service(service)` (`none` models a falsy argument). -/
def LogFilter.set_service (f : LogFilter) (service : String) : LogFilter :=
  { f with service_filter := if service ≠ "" then some (pyLower service) else none }

/-- `LogFilter.set_keyword(keyword)`. -/
def LogFilter.set_keyword (f : LogFilter) (keyword : String) : LogFilter :=
  { f with keyword_filter := if keyword ≠ "" then some (pyLower keyword) else none }

/-- `LogFilter.add_exclude_keyword(keyword)`: note the source tests membership
of `keyword` as given but appends `keyword.lower()`. -/
def LogFilter.add_exclude_keyword (f : LogFilter) (keyword : String) : LogFilter :=
  if keyword ≠ "" ∧ keyword ∉ f.exclude_keywords then
    { f with exclude_keywords := f.exclude_keywords ++ [pyLower keyword] }
  else f

/-- `LogFilter.matches_filter(log_entry)`.  The `try`/`except ValueError`
around the two `list.index` calls is modelled by `pyIndex` returning `none`:
any miss skips the severity gate. -/
def LogFilter.matches_filter (f : LogFilter) (log_entry : Record) : Bool :=
  let level := pyUpper (log_entry.level.getD "INFO")
  let service := pyLower (log_entry.service.getD "")
  let message := pyLower (log_entry.message.getD "")
  let sevList : List String :=
    ["DEBUG", "INFO", "NOTICE", "WARNING", "ERROR", "CRITICAL", "ALERT", "EMERGENCY"]
  let sevOk :=
    match pyIndex sevList level, pyIndex sevList f.severity_threshold with
    | some i, some j => decide (¬ i > j)
    | _, _ => true
  sevOk
    && (match f.service_filter with
        | some sf => pySub sf.toList service.toList
        | none => true)
    && (match f.keyword_filter with
        | some kf => pySub kf.toList message.toList
        | none => true)
    && f.exclude_keywords.all (fun ex => ! pySub ex.toList message.toList)

/-- The counter part of a `PerformanceStats` (everything `update` maintains
except the two bounded buffers). -/
def statCounters (s : PerformanceStats) :
    Nat × Nat × Nat × (String → Nat) × (String → Nat) :=
  (s.log_count, s.error_count, s.warning_count, s.level_stats, s.service_stats)

/-! ### Helper lemmas about the engine and the bounded buffers -/

theorem headSomeMem {α : Type} {l : List α} {a : α} (h : l.head? = some a) : a ∈ l := by
  cases l with
  | nil => simp at h
  | cons x t =>
    have hx : x = a := by simpa using h
    rw [List.mem_cons]
    exact Or.inl hx.symm

theorem Record.get_set (r : Record) (m n : GName) (v : String) :
    (r.set m v).get n = if n = m then some v else r.get n := by
  cases m <;> cases n <;> simp [Record.set, Record.get]

/-- A group name not occurring in the pattern is untouched by matching. -/
theorem matchR_preserves (re : Regex) :
    ∀ (caps : Record) (s : List Char) (p : Record × List Char),
      p ∈ matchR re caps s → ∀ n : GName, n ∉ re.names → p.1.get n = caps.get n := by
  induction re with
  | eps =>
    intro caps s p hp n _
    simp only [matchR, List.mem_singleton] at hp
    rw [hp]
  | cls c lo hi q =>
    intro caps s p hp n _
    simp only [matchR, List.mem_map] at hp
    obtain ⟨k, _, hk⟩ := hp
    rw [← hk]
  | group m r ih =>
    intro caps s p hp n hn
    simp only [matchR, List.mem_map] at hp
    obtain ⟨q, hq, hqp⟩ := hp
    simp only [Regex.names, List.mem_cons, not_or] at hn
    rw [← hqp]
    rw [Record.get_set, if_neg hn.1]
    exact ih caps s q hq n hn.2
  | cat r₁ r₂ ih1 ih2 =>
    intro caps s p hp n hn
    simp only [matchR, List.mem_flatMap] at hp
    obtain ⟨q, hq1, hq2⟩ := hp
    simp only [Regex.names, List.mem_append, not_or] at hn
    rw [ih2 q.1 q.2 p hq2 n hn.2]
    exact ih1 caps s q hq1 n hn.1

/-- A group name occurring in the pattern is bound in every outcome. -/
theorem matchR_binds (re : Regex) :
    ∀ (caps : Record) (s : List Char) (p : Record × List Char),
      p ∈ matchR re caps s → ∀ n : GName, n ∈ re.names → (p.1.get n).isSome := by
  induction re with
  | eps =>
    intro caps s p _ n hn
    simp [Regex.names] at hn
  | cls c lo hi q =>
    intro caps s p _ n hn
    simp [Regex.names] at hn
  | group m r ih =>
    intro caps s p hp n hn
    simp only [matchR, List.mem_map] at hp
    obtain ⟨q, hq, hqp⟩ := hp
    rw [← hqp]
    by_cases hnm : n = m
    · rw [Record.get_set, if_pos hnm]
      rfl
    · rw [Record.get_set, if_neg hnm]
      simp only [Regex.names, List.mem_cons] at hn
      exact ih caps s q hq n (hn.resolve_left hnm)
  | cat r₁ r₂ ih1 ih2 =>
    intro caps s p hp n hn
    simp only [matchR, List.mem_flatMap] at hp
    obtain ⟨q, hq1, hq2⟩ := hp
    simp only [Regex.names, List.mem_append] at hn
    by_cases h2 : n ∈ r₂.names
    · exact ih2 q.1 q.2 p hq2 n h2
    · rw [matchR_preserves r₂ q.1 q.2 p hq2 n h2]
      exact ih1 caps s q hq1 n (hn.resolve_right h2)

theorem dequePush_length {α : Type} (m : Nat) (q : List α) (x : α)
    (h : q.length ≤ m) : (dequePush m q x).length ≤ m := by
  unfold dequePush
  split
  · simp only [List.length_drop]
    omega
  · simp only [List.length_append, List.length_singleton] at *
    omega

theorem foldl_dequePush {α : Type} (m : Nat) :
    ∀ (rs q : List α), q.length ≤ m →
      rs.foldl (dequePush m) q = (q ++ rs).drop (q.length + rs.length - m) := by
  intro rs
  induction rs with
  | nil =>
    intro q hq
    simp only [List.foldl_nil, List.append_nil, List.length_nil, Nat.add_zero]
    rw [Nat.sub_eq_zero_of_le hq, List.drop_zero]
  | cons r t ih =>
    intro q hq
    rw [List.foldl_cons]
    by_cases hlen : q.length + 1 ≤ m
    · have hdq : dequePush m q r = q ++ [r] := by
        unfold dequePush
        rw [if_neg]
        simp only [List.length_append, List.length_singleton]
        omega
      rw [hdq, ih (q ++ [r]) (by simp only [List.length_append, List.length_singleton]; omega)]
      have hidx : (q ++ [r]).length + t.length - m = q.length + (r :: t).length - m := by
        simp only [List.length_append, List.length_singleton, List.length_cons,
          List.length_nil]
        omega
      rw [hidx]
      have hl : (q ++ [r]) ++ t = q ++ r :: t := by simp
      rw [hl]
    · have hqm : q.length = m := by omega
      have hdq : dequePush m q r = (q ++ [r]).drop 1 := by
        unfold dequePush
        rw [if_pos]
        · congr 1
          simp only [List.length_append, List.length_singleton]
          omega
        · simp only [List.length_append, List.length_singleton]
          omega
      have hq' : ((q ++ [r]).drop 1).length ≤ m := by
        simp only [List.length_drop, List.length_append, List.length_singleton]
        omega
      rw [hdq, ih _ hq']
      have hl' : ((q ++ [r]).drop 1).length = m := by
        simp only [List.length_drop, List.length_append, List.length_singleton]
        omega
      rw [hl']
      have hidx1 : m + t.length - m = t.length := by omega
      have hidx2 : q.length + (r :: t).length - m = 1 + t.length := by
        simp only [List.length_cons, List.length_nil]
        omega
      rw [hidx1, hidx2]
      have hsplit : q ++ r :: t = (q ++ [r]) ++ t := by simp
      rw [hsplit, ← List.drop_drop,
        ← List.drop_append_of_le_length (show (1 : Nat) ≤ (q ++ [r]).length by simp)]

theorem feedRecords_recent :
    ∀ (rs : List Record) (s : PerformanceStats) (t : Nat),
      (feedRecords t s rs).recent_logs = rs.foldl (dequePush 1000) s.recent_logs := by
  intro rs
  induction rs with
  | nil => intro s t; rfl
  | cons r tl ih =>
    intro s t
    show (feedRecords t (s.update t r) tl).recent_logs = _
    rw [ih (s.update t r) t]
    rfl

/-! ### Claims -/

/-- C1: The spec says the severity gate of `matches_filter` passes a record
exactly when its severity rank is at or above the threshold's rank, so with
threshold `WARNING` it should accept `ERROR`, `CRITICAL`, `WARNING` and reject
`INFO`, `DEBUG`, `NOTICE`.  The code's comparison is inverted: it rejects
severities ranked strictly above the threshold and accepts those at or below,
so with threshold `WARNING` it rejects `ERROR` and `CRITICAL` and accepts
`WARNING`, `INFO`, `DEBUG`, `NOTICE`; with the default threshold `DEBUG`
("Show all by default") it even rejects `INFO`.  A severity outside the
enumeration does skip the gate.  This theorem evaluates the code at those
inputs, witnessing the divergence. -/
theorem c1_severity_gate_inverted :
    ((LogFilter.init.set_severity "WARNING").matches_filter
      ⟨some "t", some "ERROR", some "app", some "m"⟩ = false)
    ∧ ((LogFilter.init.set_severity "WARNING").matches_filter
      ⟨some "t", some "CRITICAL", some "app", some "m"⟩ = false)
    ∧ ((LogFilter.init.set_severity "WARNING").matches_filter
      ⟨some "t", some "WARNING", some "app", some "m"⟩ = true)
    ∧ ((LogFilter.init.set_severity "WARNING").matches_filter
      ⟨some "t", some "INFO", some "app", some "m"⟩ = true)
    ∧ ((LogFilter.init.set_severity "WARNING").matches_filter
      ⟨some "t", some "DEBUG", some "app", some "m"⟩ = true)
    ∧ ((LogFilter.init.set_severity "WARNING").matches_filter
      ⟨some "t", some "NOTICE", some "app", some "m"⟩ = true)
    ∧ (LogFilter.init.matches_filter
      ⟨some "t", some "INFO", some "app", some "m"⟩ = false)
    ∧ ((LogFilter.init.set_severity "WARNING").matches_filter
      ⟨some "t", some "TRACE", some "app", some "m"⟩ = true) :=
  ⟨rfl, rfl, rfl, rfl, rfl, rfl, rfl, rfl⟩

/-- C5: The spec says `add_exclude_keyword` is idempotent for any letter-casing
of the keyword.  The code tests membership of the keyword as given but appends
its lowercased form, so adding `"Timeout"` twice to a fresh filter stores
`"timeout"` twice; the deduplication guard in the source is defeated by the
case mismatch.  This theorem evaluates the code at that failing input. -/
theorem c5_add_exclude_keyword_duplicates :
    ((LogFilter.init.add_exclude_keyword "Timeout").add_exclude_keyword
        "Timeout").exclude_keywords = ["timeout", "timeout"]
    ∧ (LogFilter.init.add_exclude_keyword "Timeout").exclude_keywords
        = ["timeout"]
    ∧ ((LogFilter.init.add_exclude_keyword "timeout").add_exclude_keyword
        "timeout").exclude_keywords = ["timeout"] :=
  ⟨rfl, rfl, rfl⟩

/-- C7: `get_error_rate` returns `0` when `log_count = 0` and
`error_count / log_count * 100` otherwise; with `log_count = 10` and
`error_count = 3` it returns exactly `30`. -/
theorem c7_error_rate :
    (∀ s : PerformanceStats, s.log_count = 0 → s.get_error_rate = 0)
    ∧ (∀ s : PerformanceStats, s.log_count ≠ 0 →
        s.get_error_rate = ((s.error_count : ℚ) / (s.log_count : ℚ)) * 100)
    ∧ PerformanceStats.get_error_rate
        ⟨300, 10, 3, 0, fun _ => 0, fun _ => 0, [], []⟩ = 30 := by
  refine ⟨?_, ?_, ?_⟩
  · intro s h
    simp [PerformanceStats.get_error_rate, h]
  · intro s h
    simp [PerformanceStats.get_error_rate, h]
  · norm_num [PerformanceStats.get_error_rate]

/-- C7 witness: the two hypotheses discharged at the concrete stats states of
the spec's test property. -/
theorem c7_error_rate_witness :
    PerformanceStats.init.get_error_rate = 0
    ∧ PerformanceStats.get_error_rate
        ⟨300, 10, 3, 0, fun _ => 0, fun _ => 0, [], []⟩
      = ((3 : ℚ) / (10 : ℚ)) * 100 :=
  ⟨c7_error_rate.1 PerformanceStats.init rfl,
   by rw [c7_error_rate.2.1 ⟨300, 10, 3, 0, fun _ => 0, fun _ => 0, [], []⟩
        (by decide)]; norm_num⟩

/-- C8: `update` increments `log_count` by exactly 1 unconditionally,
increments `error_count` by 1 exactly when the uppercased severity is one of
`ERROR`, `CRITICAL`, `ALERT`, `EMERGENCY`, increments `warning_count` by 1
exactly when it is `WARNING`, and no other severity changes either bucket. -/
theorem c8_update_buckets :
    ∀ (s : PerformanceStats) (t : Nat) (r : Record),
      (s.update t r).log_count = s.log_count + 1
      ∧ (s.update t r).error_count = s.error_count +
          (if pyUpper (r.level.getD "INFO")
              ∈ ["ERROR", "CRITICAL", "ALERT", "EMERGENCY"] then 1 else 0)
      ∧ (s.update t r).warning_count = s.warning_count +
          (if pyUpper (r.level.getD "INFO") = "WARNING" then 1 else 0) := by
  intro s t r
  refine ⟨rfl, ?_, ?_⟩
  · by_cases h : pyUpper (r.level.getD "INFO")
        ∈ ["ERROR", "CRITICAL", "ALERT", "EMERGENCY"]
    · simp [PerformanceStats.update, h]
    · simp [PerformanceStats.update, h]
  · by_cases h : pyUpper (r.level.getD "INFO")
        ∈ ["ERROR", "CRITICAL", "ALERT", "EMERGENCY"]
    · have hne : pyUpper (r.level.getD "INFO") ≠ "WARNING" := by
        intro he
        rw [he] at h
        simp at h
      simp [PerformanceStats.update, h, hne]
    · by_cases h2 : pyUpper (r.level.getD "INFO") = "WARNING"
      · simp [PerformanceStats.update, h, h2]
      · simp [PerformanceStats.update, h, h2]

/-- C2 counterexample: the apache grammar has no `service` capture group and
`parse_line` returns `match.groupdict()` unchanged, so this grammar-accepted
line yields a record with no `service` key at all (and an empty-string
`timestamp`), refuting "the returned record contains all four keys non-empty";
the `"unknown"` default is only applied later, inside `update`. -/
theorem c2_counterexample :
    parse_line "T" LogType.apache "[] [error] [pid 1] [client x] boom"
      = some ⟨some "", some "error", none, some "boom"⟩
    ∧ (⟨some "", some "error", none, some "boom"⟩ : Record).service = none
    ∧ (⟨some "", some "error", none, some "boom"⟩ : Record).timestamp = some ""
    ∧ (tail_log_step "T" LogType.apache 0 PerformanceStats.init
        "[] [error] [pid 1] [client x] boom").service_stats "unknown" = 1 :=
  ⟨rfl, rfl, rfl, rfl⟩

/-- C2 amended: every record `parse_line` accepts has `timestamp`, `level` and
`message` keys; the `service` key is additionally present whenever the format
is `syslog` or `custom` (whose grammars capture it; the fallback path always
sets it), but for `apache`/`nginx` grammar matches it may be absent, and field
values may be empty strings — the defaults (`'INFO'`, `'unknown'`) are applied
by `StreamStats.update` itself via `dict.get` when the record reaches it, not
by the classifier. -/
theorem c2_amended :
    ∀ (now : String) (fmt : LogType) (line : String) (r : Record),
      parse_line now fmt line = some r →
        r.timestamp.isSome ∧ r.level.isSome ∧ r.message.isSome
        ∧ ((fmt = LogType.syslog ∨ fmt = LogType.custom) → r.service.isSome) := by
  intro now fmt line r h
  rcases hm : (matchR (patternOf fmt) Record.empty (pyStrip line).toList).head?
    with _ | p
  · rw [parse_line, hm] at h
    rcases hf : severity_levels.find?
        (fun l => pySub l.toList (pyUpper line).toList) with _ | lv
    · rw [hf] at h
      simp at h
    · rw [hf] at h
      simp only [Option.some.injEq] at h
      rw [← h]
      exact ⟨rfl, rfl, rfl, fun _ => rfl⟩
  · rw [parse_line, hm] at h
    simp only [Option.some.injEq] at h
    subst h
    have hmem := headSomeMem hm
    refine ⟨?_, ?_, ?_, ?_⟩
    · exact matchR_binds (patternOf fmt) Record.empty (pyStrip line).toList p hmem
        GName.timestamp (by cases fmt <;> decide)
    · exact matchR_binds (patternOf fmt) Record.empty (pyStrip line).toList p hmem
        GName.level (by cases fmt <;> decide)
    · exact matchR_binds (patternOf fmt) Record.empty (pyStrip line).toList p hmem
        GName.message (by cases fmt <;> decide)
    · intro hfmt
      rcases hfmt with h1 | h1 <;> subst h1
      · exact matchR_binds (patternOf LogType.syslog) Record.empty
          (pyStrip line).toList p hmem GName.service (by decide)
      · exact matchR_binds (patternOf LogType.custom) Record.empty
          (pyStrip line).toList p hmem GName.service (by decide)

/-- C2 amended, witness at a concrete accepted syslog line. -/
theorem c2_amended_witness :
    (some "Jan 15 10:23:45" : Option String).isSome
    ∧ (some "ERROR" : Option String).isSome
    ∧ (some "connection refused" : Option String).isSome
    ∧ ((LogType.syslog = LogType.syslog ∨ LogType.syslog = LogType.custom) →
        (some "sshd" : Option String).isSome) :=
  c2_amended "T" LogType.syslog
    "Jan 15 10:23:45 myhost sshd[1234]: ERROR: connection refused"
    ⟨some "Jan 15 10:23:45", some "ERROR", some "sshd", some "connection refused"⟩
    rfl

/-- C3 counterexample: the nginx grammar has no `service` capture group, and on
a grammar match `parse_line` does not default the service to `"unknown"` — the
returned record simply has no `service` key, refuting "the service field is
defaulted to \"unknown\" when the grammar has no service capture group". -/
theorem c3_counterexample :
    parse_line "T" LogType.nginx "2024/01/15 10:00:00 [error] 1#1: *5 oops"
      = some ⟨some "2024/01/15 10:00:00", some "error", none, some "oops"⟩
    ∧ (⟨some "2024/01/15 10:00:00", some "error", none, some "oops"⟩
        : Record).service ≠ some "unknown" :=
  ⟨rfl, by decide⟩

/-- C3 amended: for every line matching the configured grammar, `parse_line`
returns exactly the engine's capture dict (fields equal the named capture
groups); when the grammar has no `service` group (apache, nginx) the record has
no `service` field at all (the `"unknown"` default is applied downstream by the
consumers); the concrete syslog instance yields timestamp `"Jan 15 10:23:45"`,
service `"sshd"`, level `"ERROR"`, message `"connection refused"`. -/
theorem c3_amended :
    (∀ (now : String) (fmt : LogType) (line : String) (p : Record × List Char),
      (matchR (patternOf fmt) Record.empty (pyStrip line).toList).head? = some p →
        parse_line now fmt line = some p.1)
    ∧ (∀ (line : List Char) (p : Record × List Char),
        (matchR (patternOf LogType.apache) Record.empty line).head? = some p →
          p.1.service = none)
    ∧ (∀ (line : List Char) (p : Record × List Char),
        (matchR (patternOf LogType.nginx) Record.empty line).head? = some p →
          p.1.service = none)
    ∧ parse_line "T" LogType.syslog
        "Jan 15 10:23:45 myhost sshd[1234]: ERROR: connection refused"
      = some ⟨some "Jan 15 10:23:45", some "ERROR", some "sshd",
              some "connection refused"⟩ := by
  refine ⟨?_, ?_, ?_, rfl⟩
  · intro now fmt line p hm
    rw [parse_line, hm]
  · intro line p hm
    exact matchR_preserves (patternOf LogType.apache) Record.empty line p
      (headSomeMem hm) GName.service (by decide)
  · intro line p hm
    exact matchR_preserves (patternOf LogType.nginx) Record.empty line p
      (headSomeMem hm) GName.service (by decide)

/-- C3 amended, witness: the groupdict equation instantiated at a concrete
apache line. -/
theorem c3_amended_witness :
    parse_line "T" LogType.apache "[Mon] [warn] [pid 9] [client h] taken"
      = some ⟨some "Mon", some "warn", none, some "taken"⟩ :=
  c3_amended.1 "T" LogType.apache "[Mon] [warn] [pid 9] [client h] taken"
    (⟨some "Mon", some "warn", none, some "taken"⟩, []) rfl

/-- C4: for a line the configured grammar does not match whose uppercased text
contains a severity enumeration member, `parse_line` returns the record whose
severity is the first hit in table-declaration order (EMERGENCY before ALERT
before CRITICAL before ERROR before WARNING before NOTICE before INFO before
DEBUG), whose service is `"unknown"`, whose message is the full trimmed line,
and whose timestamp is the classification wall-clock instant (`now`, standing
for `datetime.now().strftime('%Y-%m-%d %H:%M:%S')`). -/
theorem c4_fallback_first_keyword :
    ∀ (now : String) (fmt : LogType) (line : String) (lv : String),
      (matchR (patternOf fmt) Record.empty (pyStrip line).toList).head? = none →
      (["EMERGENCY", "ALERT", "CRITICAL", "ERROR", "WARNING", "NOTICE", "INFO",
        "DEBUG"] : List String).find?
          (fun l => pySub l.toList (pyUpper line).toList) = some lv →
      parse_line now fmt line
        = some ⟨some now, some lv, some "unknown", some (pyStrip line)⟩ := by
  intro now fmt line lv h1 h2
  rw [parse_line, h1]
  have hsl : severity_levels.find? (fun l => pySub l.toList (pyUpper line).toList)
      = some lv := h2
  rw [hsl]

/-- C4 witness at the spec's own example line (the first hit is `ERROR`,
scanned after `EMERGENCY`, `ALERT`, `CRITICAL` miss). -/
theorem c4_fallback_first_keyword_witness :
    parse_line "2024-01-15 10:00:00" LogType.syslog
        "Something went WRONG: ERROR occurred"
      = some ⟨some "2024-01-15 10:00:00", some "ERROR", some "unknown",
              some "Something went WRONG: ERROR occurred"⟩ :=
  c4_fallback_first_keyword "2024-01-15 10:00:00" LogType.syslog
    "Something went WRONG: ERROR occurred" "ERROR" rfl rfl

/-- C6: a line with no grammar match and no severity keyword in its uppercased
text is returned as `None` by `parse_line`, and the `tail_log` loop body then
never calls `update` for it, leaving the statistics — in particular
`log_count` — unchanged. -/
theorem c6_unparseable_dropped :
    ∀ (now : String) (fmt : LogType) (line : String),
      (matchR (patternOf fmt) Record.empty (pyStrip line).toList).head? = none →
      severity_levels.find? (fun l => pySub l.toList (pyUpper line).toList)
        = none →
      parse_line now fmt line = none
      ∧ ∀ (s : PerformanceStats) (t : Nat),
          tail_log_step now fmt t s line = s
          ∧ (tail_log_step now fmt t s line).log_count = s.log_count := by
  intro now fmt line h1 h2
  have hp : parse_line now fmt line = none := by
    rw [parse_line, h1, h2]
  refine ⟨hp, ?_⟩
  intro s t
  have hs : tail_log_step now fmt t s line = s := by
    rw [tail_log_step, hp]
  exact ⟨hs, by rw [hs]⟩

/-- C6 witness: the empty line (empty after trimming) matches no grammar,
contains no severity keyword, and leaves the initial statistics untouched. -/
theorem c6_unparseable_dropped_witness :
    parse_line "T" LogType.syslog "" = none
    ∧ tail_log_step "T" LogType.syslog 0 PerformanceStats.init ""
        = PerformanceStats.init
    ∧ (tail_log_step "T" LogType.syslog 0 PerformanceStats.init "").log_count
        = PerformanceStats.init.log_count := by
  have h := c6_unparseable_dropped "T" LogType.syslog "" rfl rfl
  exact ⟨h.1, (h.2 PerformanceStats.init 0).1, (h.2 PerformanceStats.init 0).2⟩

/-- C9: the `recent_logs` ring buffer (a `deque(maxlen=1000)`) never exceeds
1000 entries under any sequence of `update` calls, and eviction is FIFO:
feeding 1500 records into fresh statistics leaves exactly the most recent 1000
in insertion order (the suffix of the fed sequence after dropping the oldest
500). -/
theorem c9_ring_buffer :
    (∀ (s : PerformanceStats) (t : Nat) (rs : List Record),
      s.recent_logs.length ≤ 1000 →
        (feedRecords t s rs).recent_logs.length ≤ 1000)
    ∧ (∀ (t : Nat) (rs : List Record), rs.length = 1500 →
        (feedRecords t PerformanceStats.init rs).recent_logs = rs.drop 500) := by
  constructor
  · intro s t rs hs
    rw [feedRecords_recent rs s t, foldl_dequePush 1000 rs s.recent_logs hs]
    simp only [List.length_drop, List.length_append]
    omega
  · intro t rs hlen
    rw [feedRecords_recent rs PerformanceStats.init t,
      foldl_dequePush 1000 rs PerformanceStats.init.recent_logs (by simp [PerformanceStats.init])]
    show (([] : List Record) ++ rs).drop (([] : List Record).length + rs.length - 1000) = rs.drop 500
    rw [List.nil_append, List.length_nil, hlen]

/-- C9 witness: both parts at a concrete run of 1500 identical records. -/
theorem c9_ring_buffer_witness :
    (feedRecords 0 PerformanceStats.init (List.replicate 1500 Record.empty)).recent_logs
      = (List.replicate 1500 Record.empty).drop 500
    ∧ (feedRecords 0 PerformanceStats.init
        (List.replicate 1500 Record.empty)).recent_logs.length ≤ 1000 :=
  ⟨c9_ring_buffer.2 0 (List.replicate 1500 Record.empty)
     (List.length_replicate 1500 Record.empty),
   c9_ring_buffer.1 PerformanceStats.init 0 (List.replicate 1500 Record.empty)
     (by simp [PerformanceStats.init])⟩

/-- C10: `update` and `matches_filter` are total over records missing keys: a
record without `level` is treated exactly like one with `level = "INFO"`
(`update`'s counters agree, and `matches_filter` agrees), one without
`service` is tallied under `"unknown"` by `update` and treated as `""` by
`matches_filter`, and one without `message` is treated as `""` by
`matches_filter`. -/
theorem c10_missing_keys_defaults :
    ∀ (f : LogFilter) (s : PerformanceStats) (t : Nat) (r : Record),
      (r.level = none →
        statCounters (s.update t r)
          = statCounters (s.update t ⟨r.timestamp, some "INFO", r.service, r.message⟩)
        ∧ f.matches_filter r
          = f.matches_filter ⟨r.timestamp, some "INFO", r.service, r.message⟩)
      ∧ (r.service = none →
        (s.update t r).service_stats "unknown" = s.service_stats "unknown" + 1
        ∧ f.matches_filter r
          = f.matches_filter ⟨r.timestamp, r.level, some "", r.message⟩)
      ∧ (r.message = none →
        f.matches_filter r
          = f.matches_filter ⟨r.timestamp, r.level, r.service, some ""⟩) := by
  intro f s t r
  obtain ⟨rt, rl, rsv, rm⟩ := r
  refine ⟨?_, ?_, ?_⟩
  · intro h
    subst h
    exact ⟨rfl, rfl⟩
  · intro h
    subst h
    refine ⟨?_, rfl⟩
    show bumpStat s.service_stats ((none : Option String).getD "unknown") "unknown"
      = s.service_stats "unknown" + 1
    simp [bumpStat]
  · intro h
    subst h
    rfl

/-- C10 witness: each hypothesis discharged at the all-keys-missing record. -/
theorem c10_missing_keys_defaults_witness :
    (statCounters (PerformanceStats.init.update 0 Record.empty)
      = statCounters (PerformanceStats.init.update 0 ⟨none, some "INFO", none, none⟩))
    ∧ (PerformanceStats.init.update 0 Record.empty).service_stats "unknown"
      = PerformanceStats.init.service_stats "unknown" + 1
    ∧ LogFilter.init.matches_filter Record.empty
      = LogFilter.init.matches_filter ⟨none, none, none, some ""⟩ :=
  ⟨((c10_missing_keys_defaults LogFilter.init PerformanceStats.init 0
      Record.empty).1 rfl).1,
   ((c10_missing_keys_defaults LogFilter.init PerformanceStats.init 0
      Record.empty).2.1 rfl).1,
   (c10_missing_keys_defaults LogFilter.init PerformanceStats.init 0
      Record.empty).2.2 rfl⟩
